import Mathlib

/-!
Verification of the declaration-enumeration cursor (`TClingMethodInfo`) and
the snapshot writer (`rootclingIO.cxx`) of the cppyy-backend repository.

The C++ code is shallowly embedded as executable Lean definitions:

* `MethodInfoState` models the mutable fields of `TClingMethodInfo`.
  The pair (fContexts, fContextIdx, fIter) is represented by the suffix of
  decls still to visit in the current context (`curDecls`, whose head is the
  decl `*fIter` points at) together with the contexts not yet entered
  (`pending`).  This is faithful because `fIter` and `fContextIdx` only ever
  move forward and contexts are only appended at the end of `fContexts`
  (inline namespace discovery), so the already-visited prefix is never
  touched again.
* The nested `UsingIterator` (fields fIter/fEnd over the shadow declarations
  of a `UsingDecl`) is represented by the suffix of shadow positions still
  to visit (`usingRem`, whose head is the current position).
* Machine integers: the `unsigned` arithmetic of `NArg`/`NDefaultArg` is
  modelled with explicit reduction modulo 2^32 and a truncating cast to a
  signed 32-bit integer.
* External collaborators (the Clang AST and Sema, the LookupHelper, TClass
  resolution, the TFile container) are modelled as data carried by the
  declaration records or by an environment record (`IOEnv`); the control
  flow of the repository's own functions is translated statement by
  statement.
-/

namespace CppyyBackend

/-- Truncating cast of a C `unsigned` value to a 32-bit `int`
(two's complement), as done by `static_cast<int>` in `NArg`/`NDefaultArg`. -/
def int32ofNat (n : Nat) : Int :=
  if n % 4294967296 < 2147483648 then ((n % 4294967296 : Nat) : Int)
  else ((n % 4294967296 : Nat) : Int) - 4294967296

/-- C `unsigned` subtraction (wraparound modulo 2^32), as in
`num_params - min_args` in `NDefaultArg`. -/
def usub32 (a b : Nat) : Nat :=
  (a % 4294967296 + (4294967296 - b % 4294967296)) % 4294967296

/-- clang::AccessSpecifier as read by `Decl::getAccess()`. -/
inductive CXXAccessSpecifier where
  | AS_public
  | AS_protected
  | AS_private
  | AS_none
deriving DecidableEq, Repr

/-- Which flavour of declaration `GetMethodDecl()` is looking at, as
distinguished by the `dyn_cast`s in `Property`/`ExtraProperty`/`Type`:
not a `CXXMethodDecl` at all, a plain method, a constructor, a destructor,
or a conversion operator. -/
inductive MethodKind where
  | notMethod
  | plainMethod
  | ctor
  | dtor
  | conversion
deriving DecidableEq, Repr

/-- A canonical `clang::QualType` as far as `TClingMethodInfo::Property`
inspects it: the spine of array / reference / pointer / member-pointer
wrappers, each level carrying its own const qualification
(`QualType::isConstQualified`), ending in some other type. -/
inductive CanQualType where
  | arrayT (isConst : Bool) (elem : CanQualType)
  | refT (isConst : Bool) (pointee : CanQualType)
  | ptrT (isConst : Bool) (pointee : CanQualType)
  | memPtrT (isConst : Bool) (pointee : CanQualType)
  | builtinT (isConst : Bool)
deriving DecidableEq, Repr

/-- `QualType::isConstQualified()` on the outermost level. -/
def qtConst : CanQualType → Bool
  | .arrayT c _ => c
  | .refT c _ => c
  | .ptrT c _ => c
  | .memPtrT c _ => c
  | .builtinT c => c

/-- Modelled from the spec: the numeric values of TDictionary's EProperty
bits (kIsPublic, kIsVirtual, ...) are declared in a header that is not part
of the excerpt; since the bits are distinct, the `long` bitmask built by
`TClingMethodInfo::Property` is modelled as a record with one Boolean per
bit, where `property |= kX` becomes setting the corresponding flag and the
empty bitmask `0L` is the record with every flag false. -/
structure PropMask where
  isCompiled : Bool := false
  isConstexpr : Bool := false
  isPublic : Bool := false
  isProtected : Bool := false
  isPrivate : Bool := false
  isStatic : Bool := false
  isConstant : Bool := false
  isReference : Bool := false
  isPointer : Bool := false
  isConstPointer : Bool := false
  isConstMethod : Bool := false
  isVirtual : Bool := false
  isPureVirtual : Bool := false
  isExplicit : Bool := false
deriving DecidableEq, Repr

/-- The empty Property bitmask (`0L`). -/
def PropMask.empty : PropMask := {}

/-- Modelled from the spec: the numeric values of TDictionary's
EFunctionProperty bits are likewise outside the excerpt; the bitmask of
`TClingMethodInfo::ExtraProperty` is modelled as a record of flags. -/
structure ExtraPropMask where
  isOperator : Bool := false
  isConversion : Bool := false
  isConstructor : Bool := false
  isDestructor : Bool := false
  isInlined : Bool := false
  isTemplateSpec : Bool := false
deriving DecidableEq, Repr

/-- The empty ExtraProperty bitmask (`0L`). -/
def ExtraPropMask.empty : ExtraPropMask := {}

/-- A `clang::FunctionDecl` as far as the queries of `TClingMethodInfo`
read it.  Facts computed by the external AST/Sema collaborators
(`getNumParams`, `getMinRequiredArguments`, `getAccess`, the mangled name
computed by `cling::utils::Analyze::maybeMangleDeclName`, the return type
after `DeduceReturnType`, the constructor's class type from its
`DeclContext`) are carried as fields. -/
structure FunctionDecl where
  numParams : Nat
  minRequiredArguments : Nat
  deleted : Bool
  constexprFlag : Bool
  access : CXXAccessSpecifier
  /-- `getDeclContext()->isNamespace()`. -/
  ctxIsNamespace : Bool
  /-- `getStorageClass() == clang::SC_Static`. -/
  staticStorage : Bool
  /-- `getReturnType().getCanonicalType()`, inspected by `Property`. -/
  returnTypeCanonical : CanQualType
  /-- `getReturnType()` as used by `Type()`, after the undeduced-auto
  handling (the `DeduceReturnType` call is an external Sema service). -/
  returnType : CanQualType
  methodKind : MethodKind
  /-- `getMethodQualifiers().hasConst()` (meaningful for methods). -/
  methodConstQual : Bool
  methodVirtual : Bool
  methodPure : Bool
  /-- `isExplicit()` of a constructor or conversion operator. -/
  explicitFlag : Bool
  overloadedOperator : Bool
  inlined : Bool
  /-- `getTemplatedKind() != clang::FunctionDecl::TK_NonTemplate`. -/
  templatedKindNotNonTemplate : Bool
  /-- The mangled name produced by the external mangler for this decl. -/
  mangledName : String
  /-- For a constructor: the type of the enclosing class
  (`dyn_cast_or_null<TypeDecl>(getDeclContext())`); `none` models the
  error path where no `TypeDecl` context is found. -/
  ctorClassType : Option CanQualType
deriving DecidableEq, Repr

/-- A template parameter of a `clang::FunctionTemplateDecl` as inspected by
`GetOrInstantiateFuncTemplateWithDefaults`. -/
inductive TemplateParmKind where
  | typeParm
  | nonTypeParm
  | templateTemplateParm
deriving DecidableEq, Repr

structure TemplateParm where
  kind : TemplateParmKind
  isPack : Bool
  hasDefault : Bool
deriving DecidableEq, Repr

/-- A `clang::FunctionTemplateDecl` as inspected by
`GetOrInstantiateFuncTemplateWithDefaults`.  The outcomes of the external
Sema/LookupHelper services used by its (dead) tail are carried as fields:
`substOk` is whether `Sema::SubstType` resolves every dependent parameter
type, and `lookupResult` is what `LookupHelper::findFunctionProto` returns
for the substituted signature. -/
structure FunctionTemplateDecl where
  parms : List TemplateParm
  /-- `getTemplateParameters()->containsUnexpandedParameterPack()`. -/
  containsUnexpandedPack : Bool
  /-- `getTemplateParameters()->getMinRequiredArguments()`. -/
  minRequiredTemplateArgs : Nat
  substOk : Bool
  lookupResult : Option FunctionDecl
deriving DecidableEq, Repr

/-- One position of `clang::UsingDecl::shadow_iterator`, as inspected by
`TClingMethodInfo::UsingIterator::operator*`:

* `nullPos`: `*fIter` is a null pointer;
* `ctorShadow target targetAsFunction`: the position is a
  `ConstructorUsingShadowDecl`; `target` is
  `some (isImplicit, inheritingCtor)` when its target decl `dyn_cast`s to a
  `CXXConstructorDecl` (with the base constructor's `isImplicit()` flag and
  the inheriting constructor that `Sema::findInheritingConstructor`
  synthesizes for the current class), and `none` otherwise;
  `targetAsFunction` is the final `dyn_cast<FunctionDecl>(getTargetDecl())`;
* `plainShadow targetAsMethod targetAsFunction`: the position is a plain
  `UsingShadowDecl`; `targetAsMethod` is
  `dyn_cast<CXXMethodDecl>(getTargetDecl())` and `targetAsFunction` the
  final `dyn_cast<FunctionDecl>(getTargetDecl())`. -/
inductive Shadow where
  | nullPos
  | ctorShadow (target : Option (Bool × FunctionDecl))
      (targetAsFunction : Option FunctionDecl)
  | plainShadow (targetAsMethod : Option FunctionDecl)
      (targetAsFunction : Option FunctionDecl)
deriving DecidableEq, Repr

/-- `TClingMethodInfo::UsingIterator::operator*`. -/
def shadowResolve : Shadow → Option FunctionDecl
  | .nullPos => none
  | .ctorShadow (some (implicitBase, inheriting)) _ =>
      -- skip as Cling will generate these anyway
      if implicitBase then none else some inheriting
  | .ctorShadow none fb => fb
  | .plainShadow (some m) _ => some m
  | .plainShadow none fb => fb

/-- A `clang::UsingDecl`: its own access specifier (read through
`fAccessDecl->getAccess()` in `Property`) and its shadow declarations. -/
structure UsingDecl where
  access : CXXAccessSpecifier
  shadows : List Shadow
deriving DecidableEq, Repr

/-- A declaration as classified by the `dyn_cast` chain in
`TClingMethodInfo::InternalNext`: function template, using-declaration,
function/method, namespace (with the two facts the namespace branch reads:
`getDeclContext()->isTranslationUnit()` and `isInlineNamespace()`, plus the
decls the namespace contains), or anything else. -/
inductive Decl where
  | funcTemplate (ftd : FunctionTemplateDecl)
  | usingD (ud : UsingDecl)
  | function (fd : FunctionDecl)
  | namespaceD (ctxIsTranslationUnit : Bool) (isInline : Bool)
      (decls : List Decl)
  | otherDecl
deriving Repr

/-- The state of a `TClingMethodInfo` cursor.

`curDecls` is the suffix of the current context's declarations starting at
the one `fIter` points to (`[]` means `*fIter` is null, i.e. the iterator
ran off the end); `pending` is the suffix of `fContexts` after
`fContextIdx`.  `usingRem` is the suffix of shadow positions of the active
`UsingIterator` starting at its current position (`some []` is an
allocated but exhausted iterator, `none` is `fUsingIter == nullptr`).
`accessDecl` keeps the access specifier of the `fAccessDecl` using-decl.
`fDecl` is the fixed declaration of a non-iterating cursor
(`TClingDeclInfo::fDecl`). -/
structure MethodInfoState where
  fDecl : Option FunctionDecl
  firstTime : Bool
  curDecls : List Decl
  pending : List (List Decl)
  templateSpec : Option FunctionDecl
  usingRem : Option (List Shadow)
  accessDecl : Option CXXAccessSpecifier

/-- `GetOrInstantiateFuncTemplateWithDefaults`
(TClingMethodInfo.cxx, lines 284-398).  The body begins with an
unconditional early return (the source reads `// NO!!` followed by
`return nullptr;`), so every later statement of the function is dead code
and the function yields no instantiation for any template. -/
def GetOrInstantiateFuncTemplateWithDefaults
    (_ftd : FunctionTemplateDecl) : Option FunctionDecl :=
  none

/-- The dead remainder of `GetOrInstantiateFuncTemplateWithDefaults`
(everything after the disabled early return, lines 291-397), kept for
reference: the eligibility screen over the template parameters (no
unexpanded pack, minimum required template-argument count zero, the first
parameter not a pack and defaulted and not a template-template parameter),
the per-parameter default-argument collection, the dependent parameter-type
substitution, and the final scope-qualified lookup. -/
def eagerInstantiateDeadPath (ftd : FunctionTemplateDecl) :
    Option FunctionDecl :=
  if ftd.containsUnexpandedPack then none
  else if 0 < ftd.minRequiredTemplateArgs then none
  else
    let firstOk : Bool :=
      match ftd.parms with
      | [] => true
      | p0 :: _ =>
        if p0.isPack then false
        else
          match p0.kind with
          | .typeParm => p0.hasDefault
          | .nonTypeParm => p0.hasDefault
          | .templateTemplateParm => false
    if firstOk then
      if ftd.parms.all (fun p => !p.isPack && p.hasDefault) then
        if ftd.substOk then ftd.lookupResult else none
      else none
    else none

/-- The inner loop `while (++(*fUsingIter)) { if (*(*fUsingIter)) return 1; }`
of `InternalNext`: step the using-iterator forward; stop with the new
suffix at the first position whose resolved shadow target is non-null;
`none` when the iterator runs off the end instead. -/
def stepUsing : List Shadow → Option (List Shadow)
  | [] => none
  | _ :: rest =>
    match rest with
    | [] => none
    | s :: _ =>
      if (shadowResolve s).isSome then some rest else stepUsing rest

/-- The context-overflow loop `while (!*fIter) { ... }` of `InternalNext`:
if the current position is past the end of the current context, move to the
next pending context (`fIter = dc->decls_begin()`), skipping empty ones;
`none` when no context remains (`fContextIdx >= fContexts.size()`). -/
def fixIter : List Decl → List (List Decl) →
    Option (Decl × List Decl × List (List Decl))
  | [], [] => none
  | [], c :: cs => fixIter c cs
  | d :: ds, cs => some (d, d :: ds, cs)

/-- Outcome of one iteration of the `while (true)` loop of `InternalNext`:
either the function returns (`done found state`) or the loop repeats
(`again state`). -/
inductive StepRes where
  | done (found : Bool) (st : MethodInfoState)
  | again (st : MethodInfoState)

/-- The classification of the current declaration at the bottom of the
`InternalNext` loop body (lines 450-489): function templates go through
`GetOrInstantiateFuncTemplateWithDefaults` (a deleted instantiation is
dropped); a using-declaration starts a fresh using-iterator and becomes the
access-override decl; a non-deleted function is reported found; an inline
namespace directly inside the translation unit is appended to the context
list; everything else is silently skipped. -/
def classifyDecl (st : MethodInfoState) : Decl → StepRes
  | .funcTemplate ftd =>
    match GetOrInstantiateFuncTemplateWithDefaults ftd with
    | some fd =>
      if fd.deleted then .again st
      else .done true { st with templateSpec := some fd }
    | none => .again st
  | .usingD ud =>
    .done true { st with usingRem := some ud.shadows,
                         accessDecl := some ud.access }
  | .function fd => if fd.deleted then .again st else .done true st
  | .namespaceD ctxIsTU isInl ds =>
    if ctxIsTU && isInl then .again { st with pending := st.pending ++ [ds] }
    else .again st
  | .otherDecl => .again st

/-- The context-overflow fix followed by classification (lines 432-489).
When every context is exhausted the cursor becomes permanently invalid
(`curDecls = []`, `pending = []`, result 0). -/
def fixAndClassify (st : MethodInfoState) : StepRes :=
  match fixIter st.curDecls st.pending with
  | none => .done false { st with curDecls := [], pending := [] }
  | some (d, cur, pend) =>
    classifyDecl { st with curDecls := cur, pending := pend } d

/-- One full iteration of the `while (true)` loop of `InternalNext`
(lines 411-496): clear `fTemplateSpec`; on the first call do not advance;
otherwise, if a using-iterator is active and not exhausted, step it
(returning found on the first non-null shadow target, and on exhaustion
deleting it, clearing the access-override decl and advancing the outer
iterator); otherwise advance the outer iterator; then fix context overflow
and classify the current declaration.  Note that an already-exhausted
using-iterator (`*fUsingIter` false) takes the plain `++fIter` branch and
is NOT deleted. -/
def internalNextIter (st0 : MethodInfoState) : StepRes :=
  let st := { st0 with templateSpec := none }
  if st.firstTime then
    fixAndClassify { st with firstTime := false }
  else
    match st.usingRem with
    | some rem =>
      if rem.isEmpty then
        fixAndClassify { st with curDecls := st.curDecls.tail }
      else
        match stepUsing rem with
        | some rem2 => .done true { st with usingRem := some rem2 }
        | none =>
          fixAndClassify { st with usingRem := none, accessDecl := none,
                                   curDecls := st.curDecls.tail }
    | none => fixAndClassify { st with curDecls := st.curDecls.tail }

/-- The `while (true)` loop of `InternalNext`, with explicit fuel (the
source loop terminates because positions only move forward; fuel keeps the
definition structurally recursive and computable by the kernel).  Fuel 0
answers 0 with the state unchanged. -/
def internalNextLoop : Nat → MethodInfoState → Bool × MethodInfoState
  | 0, st => (false, st)
  | fuel + 1, st =>
    match internalNextIter st with
    | .done b st2 => (b, st2)
    | .again st2 => internalNextLoop fuel st2

/-- `TClingMethodInfo::InternalNext` (lines 400-499): if the cursor is past
its first advance and the outer iterator is already invalid
(`!fFirstTime && !*fIter`), return 0 immediately without touching the
state; otherwise run the loop.  (`fNameCache.clear()` only invalidates the
name cache and is not part of the modelled state.)  `true` models the
return value 1, `false` the return value 0. -/
def InternalNext (fuel : Nat) (st : MethodInfoState) :
    Bool × MethodInfoState :=
  if !st.firstTime && st.curDecls.isEmpty then (false, st)
  else internalNextLoop fuel st

/-- `TClingMethodInfo::GetDeclSlow` (lines 234-245): the synthesized
specialization if held; else, with an allocated using-iterator, null when
it is exhausted and otherwise its resolved current shadow target; else the
raw declaration at the outer iterator. -/
def GetDeclSlow (st : MethodInfoState) : Option Decl :=
  match st.templateSpec with
  | some t => some (Decl.function t)
  | none =>
    match st.usingRem with
    | some rem =>
      match rem with
      | [] => none
      | s :: _ => (shadowResolve s).map Decl.function
    | none => st.curDecls.head?

/-- `TClingMethodInfo::GetDecl` (header, lines 91-95): the fixed
declaration when the cursor was constructed from one, else `GetDeclSlow`. -/
def GetDecl (st : MethodInfoState) : Option Decl :=
  match st.fDecl with
  | some fd => some (Decl.function fd)
  | none => GetDeclSlow st

/-- `TClingMethodInfo::GetMethodDecl`:
`cast_or_null<FunctionDecl>(GetDecl())`.  A null decl gives null; a
non-null decl of any other kind would trip the `cast_or_null` assertion in
the source and is modelled as none. -/
def GetMethodDecl (st : MethodInfoState) : Option FunctionDecl :=
  match GetDecl st with
  | some (Decl.function fd) => some fd
  | _ => none

/-- Modelled from the spec: `TClingDeclInfo::IsValid` lives in
TClingDeclInfo.h, which is not part of the excerpt; per the spec's failure
taxonomy (sections 4 and 7) a cursor is invalid exactly when it has no
current declaration, so validity is `GetDecl() != nullptr`. -/
def IsValid (st : MethodInfoState) : Bool :=
  (GetDecl st).isSome

/-- `TClingMethodInfo::NArg` (lines 247-256). -/
def NArg (st : MethodInfoState) : Int :=
  if IsValid st then
    match GetMethodDecl st with
    | some fd => int32ofNat fd.numParams
    | none => -1
  else -1

/-- `TClingMethodInfo::NDefaultArg` (lines 258-269), with the `unsigned`
subtraction `num_params - min_args` and the truncating cast modelled
exactly. -/
def NDefaultArg (st : MethodInfoState) : Int :=
  if IsValid st then
    match GetMethodDecl st with
    | some fd => int32ofNat (usub32 fd.numParams fd.minRequiredArguments)
    | none => -1
  else -1

/-- The access-specifier switch of `Property` (lines 521-538): the access
of the override decl if one is active, else the function's own; `AS_none`
counts as public only when the function's decl context is a namespace. -/
def applyAccess (a : CXXAccessSpecifier) (ctxIsNamespace : Bool)
    (p : PropMask) : PropMask :=
  match a with
  | .AS_public => { p with isPublic := true }
  | .AS_protected => { p with isProtected := true }
  | .AS_private => { p with isPrivate := true }
  | .AS_none =>
    if ctxIsNamespace then { p with isPublic := true } else p

/-- The return-type stripping loop of `Property` (lines 546-569): walk
arrays, references, pointers and member pointers, recording reference and
pointer-ness and whether any pointer level was itself const; the final
element type is returned for the trailing const check. -/
def propertyLoop : CanQualType → PropMask → PropMask × CanQualType
  | .arrayT _ e, p => propertyLoop e p
  | .refT _ pe, p => propertyLoop pe { p with isReference := true }
  | .ptrT c pe, p =>
    propertyLoop pe
      { p with isPointer := true, isConstPointer := p.isConstPointer || c }
  | .memPtrT _ pe, p => propertyLoop pe p
  | .builtinT c, p => (p, .builtinT c)

/-- The `CXXMethodDecl` section of `Property` (lines 573-596). -/
def methodPart (fd : FunctionDecl) (p : PropMask) : PropMask :=
  if fd.methodKind = MethodKind.notMethod then p
  else
    let p1 := if fd.methodConstQual then
                { p with isConstant := true, isConstMethod := true } else p
    let p2 := if fd.methodVirtual then { p1 with isVirtual := true } else p1
    let p3 := if fd.methodPure then { p2 with isPureVirtual := true } else p2
    match fd.methodKind with
    | .ctor => if fd.explicitFlag then { p3 with isExplicit := true } else p3
    | .conversion =>
      if fd.explicitFlag then { p3 with isExplicit := true } else p3
    | _ => p3

/-- The body of `Property` for a valid, resolved function declaration
(lines 511-597). -/
def propertyOfFD (accessDecl : Option CXXAccessSpecifier)
    (fd : FunctionDecl) : PropMask :=
  if fd.deleted then PropMask.empty
  else
    let p0 : PropMask := { PropMask.empty with isCompiled := true }
    let p1 := if fd.constexprFlag then { p0 with isConstexpr := true } else p0
    let p2 := applyAccess (accessDecl.getD fd.access) fd.ctxIsNamespace p1
    let p3 := if fd.staticStorage then { p2 with isStatic := true } else p2
    let qt := fd.returnTypeCanonical
    let p4 := if qtConst qt then { p3 with isConstant := true } else p3
    let pr := propertyLoop qt p4
    let p5 := if qtConst pr.2 then { pr.1 with isConstant := true } else pr.1
    methodPart fd p5

/-- `TClingMethodInfo::Property` (lines 506-598). -/
def Property (st : MethodInfoState) : PropMask :=
  if IsValid st then
    match GetMethodDecl st with
    | some fd => propertyOfFD st.accessDecl fd
    | none => PropMask.empty
  else PropMask.empty

/-- `TClingMethodInfo::ExtraProperty` (lines 600-625). -/
def ExtraProperty (st : MethodInfoState) : ExtraPropMask :=
  if IsValid st then
    match GetMethodDecl st with
    | some fd =>
      if fd.deleted then ExtraPropMask.empty
      else
        { isOperator := fd.overloadedOperator
          isConversion := fd.methodKind = MethodKind.conversion
          isConstructor := fd.methodKind = MethodKind.ctor
          isDestructor := fd.methodKind = MethodKind.dtor
          isInlined := fd.inlined
          isTemplateSpec := fd.templatedKindNotNonTemplate }
    | none => ExtraPropMask.empty
  else ExtraPropMask.empty

/-- `TClingMethodInfo::Type` (lines 627-657): the null `QualType` for an
invalid cursor; for a constructor the enclosing class type (CINT claims
constructors return the class object); otherwise the (deduced) return
type. -/
def TypeQuery (st : MethodInfoState) : Option CanQualType :=
  if IsValid st then
    match GetMethodDecl st with
    | some fd =>
      if fd.methodKind = MethodKind.ctor then fd.ctorClassType
      else some fd.returnType
    | none => none
  else none

/-- `TClingMethodInfo::GetMangledName` (lines 659-680): the empty string
for an invalid cursor, otherwise the externally computed mangled name. -/
def GetMangledName (st : MethodInfoState) : String :=
  if IsValid st then
    match GetMethodDecl st with
    | some fd => fd.mangledName
    | none => ""
  else ""

/-! ## The snapshot writer (rootclingIO.cxx) -/

/-- A `TDataMember` as inspected by the class loop of
`CloseStreamerInfoROOTFile`: whether it is persistent, and whether
`IsUnsupportedUniquePointer` rejects it (that helper's unique_ptr layout
and deleter checks run against external `TClass`/`TClassEdit` services and
are carried as this precomputed outcome). -/
structure DataMemberRec where
  persistent : Bool
  unsupportedUniquePointer : Bool
deriving DecidableEq, Repr

/-- A resolved `TClass` as inspected by `CloseStreamerInfoROOTFile`:
its data-member list (`GetListOfDataMembers`, null modelled as `none`),
class version, loaded flag, and — when the class stands for a namespace in
the enum loop — its enum list (`GetListOfEnums`, null modelled as `none`),
holding the unqualified names `FindObject` can find. -/
structure TClassRec where
  dataMembers : Option (List DataMemberRec)
  classVersion : Int
  isLoaded : Bool
  enumList : Option (List String)
deriving DecidableEq, Repr

/-- A `TDataType` found in `gROOT->GetListOfTypes()`: its `GetType()`
value (-1 for a not-yet-known type). -/
structure TDataTypeRec where
  gtype : Int
deriving DecidableEq, Repr

/-- The external resolution services consumed by
`CloseStreamerInfoROOTFile`: `TClass::GetClass` (also used for enum
namespaces), `FindObject` on the global type list, the global enum list,
and whether the freshly created `TFile` is a zombie (creation failed). -/
structure IOEnv where
  getClass : String → Option TClassRec
  findType : String → Option TDataTypeRec
  globalEnums : List String
  fileZombie : Bool

/-- A record written into the output file, with the key used and the
payload of names it aggregates. -/
inductive WriteOp where
  | emptyMarker
  | protoClasses (names : List String)
  | typedefRecords (names : List String)
  | enumRecords (names : List String)
  | ancestorPCMNames (names : List String)
deriving DecidableEq, Repr

/-- The per-member screen of the class loop (lines 153-157): a member that
is not persistent, or belongs to a version-0 class, is skipped; otherwise
an unsupported unique pointer aborts. -/
def memberOk (cl : TClassRec) (dm : DataMemberRec) : Bool :=
  if !dm.persistent || cl.classVersion == 0 then true
  else !dm.unsupportedUniquePointer

/-- One step of the class loop of `CloseStreamerInfoROOTFile`
(lines 138-164), for a single accumulated name: `none` is the abort
(`return false`) when the class or its data-member list cannot be found or
a member is an unsupported unique pointer; `some none` is the `continue`
for a class whose dictionary is already loaded; `some (some n)` stores a
proto class. -/
def resolveClassStep (env : IOEnv) (n : String) : Option (Option String) :=
  match env.getClass n with
  | none => none
  | some cl =>
    match cl.dataMembers with
    | none => none
    | some dms =>
      if dms.all (memberOk cl) then
        if cl.isLoaded then some none else some (some n)
      else none

/-- The class loop of `CloseStreamerInfoROOTFile` (lines 137-165): resolve
each accumulated class name in order, aborting the whole loop on the first
failing name. -/
def processClasses (env : IOEnv) : List String → Option (List String)
  | [] => some []
  | n :: rest =>
    match resolveClassStep env n with
    | none => none
    | some none => processClasses env rest
    | some (some x) => (processClasses env rest).map (fun r => x :: r)

/-- The typedef loop of `CloseStreamerInfoROOTFile` (lines 167-179): a
name that cannot be found in the global type list is skipped (mostly
harmless, so skip instead of bailing out); a found type is stored only
when its type code is still -1. -/
def processTypedefs (env : IOEnv) : List String → List String
  | [] => []
  | n :: rest =>
    match env.findType n with
    | none => processTypedefs env rest
    | some dt =>
      if dt.gtype == -1 then n :: processTypedefs env rest
      else processTypedefs env rest

/-- `enumname.find_last_of("::")`: the last index holding a colon
character (`find_last_of` searches for any of the characters of its
argument), or `none` for `std::string::npos`. -/
def findLastColon : List Char → Option Nat
  | [] => none
  | c :: rest =>
    match findLastColon rest with
    | some i => some (i + 1)
    | none => if c = ':' then some 0 else none

/-- The resolution of one enum name in the enum loop of
`CloseStreamerInfoROOTFile` (lines 184-204), producing the `TEnum* en`
(here as the name `FindObject` found, `none` for null): a name containing
a colon is split at the last colon into a namespace part
(`substr(0, lastSepPos - 1)`; the `size_t` wrap at position 0 makes the
count effectively unbounded) and an unqualified name, the namespace is
resolved through `TClass::GetClass` and its enum list searched; a plain
name is searched in the global enum list. -/
def resolveEnum (env : IOEnv) (n : String) : Option String :=
  match findLastColon n.data with
  | some p =>
    let cnt := if p = 0 then n.data.length else p - 1
    match env.getClass (String.mk (n.data.take cnt)) with
    | none => none
    | some cl =>
      match cl.enumList with
      | none => none
      | some es =>
        let unq := String.mk (n.data.drop (p + 1))
        if unq ∈ es then some unq else none
  | none => if n ∈ env.globalEnums then some n else none

/-- The enum loop of `CloseStreamerInfoROOTFile` (lines 182-211): resolve
each accumulated enum name; a null result aborts (`if (!en) ...
return false`), otherwise the enum is stored. -/
def processEnums (env : IOEnv) : List String → Option (List String)
  | [] => some []
  | n :: rest =>
    match resolveEnum env n with
    | none => none
    | some en => (processEnums env rest).map (fun r => en :: r)

/-- `AddStreamerInfoToROOTFile` (lines 39-45): filter unnamed and
(anonymous) classes — a null name (`none`), an empty name and a name whose
first character is a parenthesis leave the accumulator untouched; any
other name is appended. -/
def AddStreamerInfoToROOTFile (normName : Option String)
    (gClassesToStore : List String) : List String :=
  match normName with
  | none => gClassesToStore
  | some s =>
    match s.data with
    | [] => gClassesToStore
    | c :: _ =>
      if c = '(' then gClassesToStore else gClassesToStore ++ [s]

/-- `CloseStreamerInfoROOTFile` (lines 119-224): with the write-empty flag
only the EMPTY marker object is written and the result is true; otherwise
the class loop, the typedef loop and the enum loop run in order, each
class/enum failure returning false before anything is written, then a
zombie file returns false, and finally the three aggregate records and the
ancestor-name list are written.  The result pairs the boolean return value
with the sequence of objects written to the file. -/
def CloseStreamerInfoROOTFile (env : IOEnv) (writeEmptyRootPCM : Bool)
    (classesToStore typedefsToStore enumsToStore
     ancestorNames : List String) : Bool × List WriteOp :=
  if writeEmptyRootPCM then (true, [WriteOp.emptyMarker])
  else
    match processClasses env classesToStore with
    | none => (false, [])
    | some protos =>
      let tds := processTypedefs env typedefsToStore
      match processEnums env enumsToStore with
      | none => (false, [])
      | some ens =>
        if env.fileZombie then (false, [])
        else
          (true, [WriteOp.protoClasses protos,
                  WriteOp.typedefRecords tds,
                  WriteOp.enumRecords ens,
                  WriteOp.ancestorPCMNames ancestorNames])

/-- A class name on which the class loop aborts: unresolvable, or without
a data-member list, or with an unsupported unique-pointer member. -/
def classBad (env : IOEnv) (n : String) : Bool :=
  (resolveClassStep env n).isNone

/-- An enum name on which the enum loop aborts: the namespace part cannot
be resolved or has no enum list, or the enum itself cannot be found. -/
def enumBad (env : IOEnv) (n : String) : Bool :=
  (resolveEnum env n).isNone

/-! ## Helper lemmas -/

/-- A cursor with a resolved method declaration is valid. -/
lemma isValid_of_getMethodDecl {st : MethodInfoState} {fd : FunctionDecl}
    (h : GetMethodDecl st = some fd) : IsValid st = true := by
  unfold GetMethodDecl at h
  unfold IsValid
  cases hg : GetDecl st with
  | none => rw [hg] at h; exact Option.noConfusion h
  | some d => simp

/-- The truncating cast is the identity below 2^31. -/
lemma int32ofNat_small {n : Nat} (h : n < 2147483648) :
    int32ofNat n = (n : Int) := by
  unfold int32ofNat
  rw [Nat.mod_eq_of_lt (by omega), if_pos h]

/-- A sample plain method declaration used as concrete input. -/
def sampleFD : FunctionDecl :=
  { numParams := 3, minRequiredArguments := 1, deleted := false,
    constexprFlag := false, access := CXXAccessSpecifier.AS_public,
    ctxIsNamespace := false, staticStorage := false,
    returnTypeCanonical := CanQualType.builtinT false,
    returnType := CanQualType.builtinT false,
    methodKind := MethodKind.plainMethod, methodConstQual := false,
    methodVirtual := false, methodPure := false, explicitFlag := false,
    overloadedOperator := false, inlined := false,
    templatedKindNotNonTemplate := false, mangledName := "f3",
    ctorClassType := none }

/-- A cursor whose scope list is exhausted. -/
def exhaustedSt : MethodInfoState :=
  { fDecl := none, firstTime := false, curDecls := [], pending := [],
    templateSpec := none, usingRem := none, accessDecl := none }

/-! ## Claims about the query failure semantics and arithmetic -/

/-- C5: every query on an invalid (exhausted or null-current) cursor
returns its fixed sentinel: NArg and NDefaultArg return the negative count
-1, Property and ExtraProperty return the empty bitmask, GetMangledName
returns the empty string and Type yields the null type. -/
theorem claim_C5 (st : MethodInfoState) (h : IsValid st = false) :
    NArg st = -1 ∧ NDefaultArg st = -1 ∧ Property st = PropMask.empty ∧
    ExtraProperty st = ExtraPropMask.empty ∧ GetMangledName st = "" ∧
    TypeQuery st = none := by
  refine ⟨?_, ?_, ?_, ?_, ?_, ?_⟩ <;>
    simp [NArg, NDefaultArg, Property, ExtraProperty, GetMangledName,
          TypeQuery, h]

theorem claim_C5_witness :
    IsValid exhaustedSt = false ∧ NArg exhaustedSt = -1 ∧
    NDefaultArg exhaustedSt = -1 ∧ Property exhaustedSt = PropMask.empty ∧
    ExtraProperty exhaustedSt = ExtraPropMask.empty ∧
    GetMangledName exhaustedSt = "" ∧ TypeQuery exhaustedSt = none :=
  ⟨rfl, claim_C5 exhaustedSt rfl⟩

/-- A second exhausted cursor, concrete input for C6. -/
def exhaustedSt2 : MethodInfoState :=
  { fDecl := none, firstTime := false, curDecls := [],
    pending := [], templateSpec := none, usingRem := none,
    accessDecl := some CXXAccessSpecifier.AS_public }

/-- C6: Advance on an iterating cursor whose scope list is exhausted
returns "not found" and leaves the cursor state unchanged (the terminal
state is idempotent; earlier scopes are never revisited). -/
theorem claim_C6 (fuel : Nat) (st : MethodInfoState)
    (_hfd : st.fDecl = none) (hft : st.firstTime = false)
    (hcd : st.curDecls = []) :
    InternalNext fuel st = (false, st) := by
  unfold InternalNext
  rw [hft, hcd]
  simp

theorem claim_C6_witness : InternalNext 7 exhaustedSt2 = (false, exhaustedSt2) :=
  claim_C6 7 exhaustedSt2 rfl rfl rfl

/-- C10: for a valid cursor on a function declaration (whose minimum
required argument count is at most its parameter count, as the AST
guarantees, and whose parameter count fits in a signed 32-bit int),
NDefaultArg equals NArg minus the minimum required argument count, hence
0 <= NDefaultArg <= NArg. -/
theorem claim_C10 (st : MethodInfoState) (fd : FunctionDecl)
    (h : GetMethodDecl st = some fd)
    (hm : fd.minRequiredArguments ≤ fd.numParams)
    (hn : fd.numParams < 2147483648) :
    NDefaultArg st = NArg st - (fd.minRequiredArguments : Int) ∧
    0 ≤ NDefaultArg st ∧ NDefaultArg st ≤ NArg st := by
  have hv := isValid_of_getMethodDecl h
  have hsub : usub32 fd.numParams fd.minRequiredArguments
      = fd.numParams - fd.minRequiredArguments := by
    unfold usub32; omega
  have hNA : NArg st = (fd.numParams : Int) := by
    simp only [NArg, if_pos hv, h]
    exact int32ofNat_small hn
  have hND : NDefaultArg st
      = ((fd.numParams - fd.minRequiredArguments : Nat) : Int) := by
    simp only [NDefaultArg, if_pos hv, h, hsub]
    exact int32ofNat_small (by omega)
  rw [hNA, hND, Nat.cast_sub hm]
  refine ⟨rfl, ?_, ?_⟩ <;> omega

/-- A valid fixed cursor over `sampleFD`, concrete input for C10. -/
def c10St : MethodInfoState :=
  { fDecl := some sampleFD, firstTime := true, curDecls := [],
    pending := [], templateSpec := none, usingRem := none,
    accessDecl := none }

theorem claim_C10_witness :
    NDefaultArg c10St = NArg c10St - 1 ∧
    0 ≤ NDefaultArg c10St ∧ NDefaultArg c10St ≤ NArg c10St :=
  claim_C10 c10St sampleFD rfl (by decide) (by decide)

/-! ## Claims about the snapshot writer -/

/-- C8: with the write-empty flag set the snapshot writer writes only the
EMPTY marker object and returns true, independently of the accumulated
class, typedef, enum and ancestor name lists, which are neither validated
nor written. -/
theorem claim_C8 (env : IOEnv) (cs ts es ans : List String) :
    CloseStreamerInfoROOTFile env true cs ts es ans
      = (true, [WriteOp.emptyMarker]) := rfl

/-- C9: AddStreamerInfoToROOTFile leaves the class-name accumulator
unchanged for a null name, the empty name, or a name starting with a
parenthesis, and appends exactly the given name otherwise. -/
theorem claim_C9 (s : String) (l : List String) :
    AddStreamerInfoToROOTFile none l = l ∧
    AddStreamerInfoToROOTFile (some "") l = l ∧
    (s.data.head? = some '(' → AddStreamerInfoToROOTFile (some s) l = l) ∧
    (s.data ≠ [] → s.data.head? ≠ some '(' →
      AddStreamerInfoToROOTFile (some s) l = l ++ [s]) := by
  refine ⟨rfl, rfl, ?_, ?_⟩ <;>
  · intro h
    cases hd : s.data with
    | nil => simp_all [AddStreamerInfoToROOTFile]
    | cons c cs => simp_all [AddStreamerInfoToROOTFile]

theorem claim_C9_witness :
    AddStreamerInfoToROOTFile none ["A"] = ["A"] ∧
    AddStreamerInfoToROOTFile (some "(anonymous)") ["A"] = ["A"] ∧
    AddStreamerInfoToROOTFile (some "B") ["A"] = ["A", "B"] :=
  ⟨(claim_C9 "B" ["A"]).1,
   (claim_C9 "(anonymous)" ["A"]).2.2.1 rfl,
   (claim_C9 "B" ["A"]).2.2.2 (by decide) (by decide)⟩

/-! ## Claims about the enumeration state machine -/

/-- The state carried by a loop-iteration outcome. -/
def StepRes.state : StepRes → MethodInfoState
  | .done _ s => s
  | .again s => s

lemma classifyDecl_templateSpec (st : MethodInfoState)
    (h : st.templateSpec = none) (d : Decl) :
    (classifyDecl st d).state.templateSpec = none := by
  cases d <;>
    simp only [classifyDecl, GetOrInstantiateFuncTemplateWithDefaults] <;>
    first
      | exact h
      | split <;> simp [StepRes.state, h]

lemma fixAndClassify_templateSpec (st : MethodInfoState)
    (h : st.templateSpec = none) :
    (fixAndClassify st).state.templateSpec = none := by
  unfold fixAndClassify
  cases hf : fixIter st.curDecls st.pending with
  | none => simp [StepRes.state, h]
  | some x =>
    obtain ⟨d, cur, pend⟩ := x
    exact classifyDecl_templateSpec _ (by simp [h]) d

lemma internalNextIter_templateSpec (st : MethodInfoState) :
    (internalNextIter st).state.templateSpec = none := by
  unfold internalNextIter
  by_cases hft : st.firstTime
  · simp only [hft, if_true]
    exact fixAndClassify_templateSpec _ rfl
  · simp only [hft, if_false]
    cases st.usingRem with
    | none => exact fixAndClassify_templateSpec _ rfl
    | some rem =>
      by_cases he : rem.isEmpty
      · simp only [he, if_true]
        exact fixAndClassify_templateSpec _ rfl
      · simp only [he, if_false]
        cases stepUsing rem with
        | none => exact fixAndClassify_templateSpec _ rfl
        | some rem2 => simp [StepRes.state]

lemma internalNextLoop_templateSpec (fuel : Nat) :
    ∀ st : MethodInfoState, st.templateSpec = none →
      ((internalNextLoop fuel st).2).templateSpec = none := by
  induction fuel with
  | zero => intro st h; exact h
  | succ n ih =>
    intro st h
    have hi := internalNextIter_templateSpec st
    unfold internalNextLoop
    cases hit : internalNextIter st with
    | done b s2 => rw [hit] at hi; exact hi
    | again s2 =>
      rw [hit] at hi
      exact ih s2 hi

/-- C1 (amended): the eager-instantiation path is disabled by the early
return in `GetOrInstantiateFuncTemplateWithDefaults`, so no function
template — whether or not all its template parameters have defaults — is
ever reported with an instantiated specialization: the helper returns null
on every input and `InternalNext` never populates the cursor's synthesized
specialization.  In particular a template with a parameter lacking a
default is never reported as instantiated. -/
theorem claim_C1 :
    (∀ ftd : FunctionTemplateDecl,
        GetOrInstantiateFuncTemplateWithDefaults ftd = none) ∧
    (∀ (fuel : Nat) (st : MethodInfoState), st.templateSpec = none →
        ((InternalNext fuel st).2).templateSpec = none) := by
  refine ⟨fun _ => rfl, fun fuel st h => ?_⟩
  unfold InternalNext
  split
  · exact h
  · exact internalNextLoop_templateSpec fuel st h

/-- A function template that satisfies every eligibility condition of the
claim: a single type parameter with a default argument, no unexpanded
parameter pack, minimum required template-argument count zero, successful
substitution, and a scope-qualified lookup finding the non-deleted
concrete function `sampleFD`. -/
def eligibleFTD : FunctionTemplateDecl :=
  { parms := [{ kind := TemplateParmKind.typeParm, isPack := false,
                hasDefault := true }],
    containsUnexpandedPack := false, minRequiredTemplateArgs := 0,
    substOk := true, lookupResult := some sampleFD }

/-- A fresh iterating cursor whose scope contains exactly the eligible
function template. -/
def c1CexSt : MethodInfoState :=
  { fDecl := none, firstTime := true,
    curDecls := [Decl.funcTemplate eligibleFTD], pending := [],
    templateSpec := none, usingRem := none, accessDecl := none }

/-- C1 counterexample: on a scope holding a function template that meets
every condition of the claim (all parameters defaulted, no pack, minimum
count zero, non-deleted concrete function found by lookup — the dead
eligibility logic itself would accept it), Advance does not report the
instantiated specialization: it reports "not found" and the synthesized
specialization stays null. -/
theorem claim_C1_cex :
    eligibleFTD.containsUnexpandedPack = false ∧
    eligibleFTD.minRequiredTemplateArgs = 0 ∧
    eligibleFTD.parms.all (fun p => !p.isPack && p.hasDefault) = true ∧
    eligibleFTD.lookupResult = some sampleFD ∧
    sampleFD.deleted = false ∧
    eagerInstantiateDeadPath eligibleFTD = some sampleFD ∧
    (InternalNext 4 c1CexSt).1 = false ∧
    (InternalNext 4 c1CexSt).2.templateSpec = none :=
  ⟨rfl, rfl, rfl, rfl, rfl, rfl, rfl, rfl⟩

theorem claim_C1_witness :
    GetOrInstantiateFuncTemplateWithDefaults eligibleFTD = none ∧
    (InternalNext 4 c1CexSt).2.templateSpec = none :=
  ⟨claim_C1.1 eligibleFTD, claim_C1.2 4 c1CexSt rfl⟩

/-- A plain non-deleted function following a zero-shadow using-declaration
in the same scope. -/
def c2FD : FunctionDecl := { sampleFD with mangledName := "c2f" }

/-- A fresh iterating cursor over a scope holding a using-declaration with
zero shadow targets followed by the plain function `c2FD`. -/
def c2St0 : MethodInfoState :=
  { fDecl := none, firstTime := true,
    curDecls := [Decl.usingD { access := CXXAccessSpecifier.AS_public,
                               shadows := [] },
                 Decl.function c2FD],
    pending := [], templateSpec := none, usingRem := none,
    accessDecl := none }

/-- C2, evaluated at the failing input: the first Advance lands on the
zero-shadow using-declaration and allocates an already-exhausted
sub-iterator; the second Advance takes the plain `++fIter` branch — which
does NOT discard the exhausted sub-iterator — and reports found on the
plain function `c2FD`, yet the reported current declaration is null
because `GetDeclSlow` still consults the stale sub-iterator, so the cursor
reports invalid instead of yielding the outer iterator's declaration. -/
theorem claim_C2_eval :
    ((InternalNext 9 c2St0).1 = true) ∧
    ((InternalNext 9 c2St0).2.usingRem = some []) ∧
    (GetDecl (InternalNext 9 c2St0).2 = none) ∧
    ((InternalNext 9 (InternalNext 9 c2St0).2).1 = true) ∧
    ((InternalNext 9 (InternalNext 9 c2St0).2).2.curDecls.head?
       = some (Decl.function c2FD)) ∧
    ((InternalNext 9 (InternalNext 9 c2St0).2).2.usingRem = some []) ∧
    (GetDecl (InternalNext 9 (InternalNext 9 c2St0).2).2 = none) ∧
    (IsValid (InternalNext 9 (InternalNext 9 c2St0).2).2 = false) :=
  ⟨rfl, rfl, rfl, rfl, rfl, rfl, rfl, rfl⟩

/-- An inheriting constructor synthesized for a derived class. -/
def inheritingCtorFD : FunctionDecl :=
  { sampleFD with methodKind := MethodKind.ctor, numParams := 0,
                  minRequiredArguments := 0, mangledName := "inhCtor" }

/-- C4 (amended): a shadow position of an active using-sub-iterator whose
target is a base-class constructor resolves to null when the base
constructor is implicitly generated (it is skipped, since the interpreter
generates these anyway), and to the inheriting constructor synthesized for
the current class when the base constructor is not implicit; it never
resolves to the base constructor itself. -/
theorem claim_C4 (st : MethodInfoState) (implicitBase : Bool)
    (inheriting : FunctionDecl) (fb : Option FunctionDecl)
    (rest : List Shadow)
    (hts : st.templateSpec = none)
    (hu : st.usingRem
        = some (Shadow.ctorShadow (some (implicitBase, inheriting)) fb
                  :: rest)) :
    GetDeclSlow st
      = if implicitBase then none else some (Decl.function inheriting) := by
  simp only [GetDeclSlow, hts, hu]
  cases implicitBase <;> simp [shadowResolve]

/-- A cursor whose using-sub-iterator sits on a shadow of an implicitly
generated base constructor. -/
def c4CexShadow : Shadow :=
  Shadow.ctorShadow (some (true, inheritingCtorFD)) none

def c4CexSt : MethodInfoState :=
  { fDecl := none, firstTime := false,
    curDecls := [Decl.usingD { access := CXXAccessSpecifier.AS_public,
                               shadows := [c4CexShadow] }],
    pending := [], templateSpec := none,
    usingRem := some [c4CexShadow],
    accessDecl := some CXXAccessSpecifier.AS_public }

/-- C4 counterexample: at a shadow position whose target is an implicitly
generated base-class constructor, the current declaration is null — the
shadow does NOT resolve to the inheriting constructor as the claim
states. -/
theorem claim_C4_cex :
    GetDeclSlow c4CexSt = none ∧
    GetDeclSlow c4CexSt ≠ some (Decl.function inheritingCtorFD) := by
  refine ⟨rfl, ?_⟩
  rw [show GetDeclSlow c4CexSt = none from rfl]
  simp

/-- A cursor whose using-sub-iterator sits on a shadow of a user-declared
(non-implicit) base constructor. -/
def c4WitnessShadow : Shadow :=
  Shadow.ctorShadow (some (false, inheritingCtorFD)) none

def c4WitnessSt : MethodInfoState :=
  { fDecl := none, firstTime := false,
    curDecls := [Decl.usingD { access := CXXAccessSpecifier.AS_public,
                               shadows := [c4WitnessShadow] }],
    pending := [], templateSpec := none,
    usingRem := some [c4WitnessShadow],
    accessDecl := some CXXAccessSpecifier.AS_public }

theorem claim_C4_witness :
    GetDeclSlow c4WitnessSt = some (Decl.function inheritingCtorFD) := by
  have := claim_C4 c4WitnessSt false inheritingCtorFD none [] rfl rfl
  simpa using this

/-! ## Claims about the snapshot writer contract -/

lemma processClasses_none_iff_any (env : IOEnv) (l : List String) :
    (processClasses env l = none) ↔ (l.any (classBad env) = true) := by
  induction l with
  | nil => simp [processClasses]
  | cons n rest ih =>
    simp only [processClasses, List.any_cons]
    cases hr : resolveClassStep env n with
    | none => simp [classBad, hr]
    | some o =>
      cases o with
      | none => simp [classBad, hr, ih]
      | some x => simp [classBad, hr, ih, Option.map_eq_none']

lemma processEnums_none_iff_any (env : IOEnv) (l : List String) :
    (processEnums env l = none) ↔ (l.any (enumBad env) = true) := by
  induction l with
  | nil => simp [processEnums]
  | cons n rest ih =>
    simp only [processEnums, List.any_cons]
    cases hr : resolveEnum env n with
    | none => simp [enumBad, hr]
    | some en => simp [enumBad, hr, ih, Option.map_eq_none']

/-- The snapshot writer's result as a case split over the three failure
sources. -/
lemma closeStreamerInfo_cases (env : IOEnv) (cs ts es ans : List String) :
    CloseStreamerInfoROOTFile env false cs ts es ans =
      match processClasses env cs, processEnums env es, env.fileZombie with
      | none, _, _ => (false, [])
      | some _, none, _ => (false, [])
      | some _, some _, true => (false, [])
      | some ps, some ens, false =>
        (true, [WriteOp.protoClasses ps,
                WriteOp.typedefRecords (processTypedefs env ts),
                WriteOp.enumRecords ens,
                WriteOp.ancestorPCMNames ans]) := by
  unfold CloseStreamerInfoROOTFile
  cases processClasses env cs <;> cases processEnums env es <;>
    cases env.fileZombie <;> simp

/-- C3 (amended): with the write-empty flag clear, the snapshot writer
returns false exactly when a named class cannot be resolved, lacks a
data-member list or has an unsupported unique-pointer member, or a named
enum (or its namespace) cannot be resolved, or the output file cannot be
created (zombie); on every failure nothing is written (the snapshot is
aborted rather than partially written); and on success the file receives
exactly the three named aggregate records followed by the ancestor-name
list.  A typedef name that cannot be resolved is silently skipped and
never causes failure. -/
theorem claim_C3 (env : IOEnv) (cs ts es ans : List String) :
    (((CloseStreamerInfoROOTFile env false cs ts es ans).1 = false) ↔
      ((∃ n ∈ cs, classBad env n = true) ∨
       (∃ n ∈ es, enumBad env n = true) ∨ env.fileZombie = true)) ∧
    ((CloseStreamerInfoROOTFile env false cs ts es ans).1 = false →
      (CloseStreamerInfoROOTFile env false cs ts es ans).2 = []) ∧
    ((CloseStreamerInfoROOTFile env false cs ts es ans).1 = true →
      ∃ ps ens, processClasses env cs = some ps ∧
        processEnums env es = some ens ∧
        (CloseStreamerInfoROOTFile env false cs ts es ans).2 =
          [WriteOp.protoClasses ps,
           WriteOp.typedefRecords (processTypedefs env ts),
           WriteOp.enumRecords ens,
           WriteOp.ancestorPCMNames ans]) := by
  have hcls := processClasses_none_iff_any env cs
  have hens := processEnums_none_iff_any env es
  rw [List.any_eq_true] at hcls
  rw [List.any_eq_true] at hens
  rw [closeStreamerInfo_cases]
  cases hpc : processClasses env cs with
  | none =>
    rw [hpc] at hcls
    exact ⟨by simp [hcls.mp rfl], fun _ => rfl,
           fun h => absurd h (by simp)⟩
  | some ps =>
    rw [hpc] at hcls
    cases hpe : processEnums env es with
    | none =>
      rw [hpe] at hens
      exact ⟨by simp [hens.mp rfl], fun _ => rfl,
             fun h => absurd h (by simp)⟩
    | some ens =>
      rw [hpe] at hens
      cases hz : env.fileZombie with
      | true =>
        exact ⟨by simp, fun _ => rfl, fun h => absurd h (by simp)⟩
      | false =>
        refine ⟨?_, by simp, fun _ => ⟨ps, ens, rfl, rfl, rfl⟩⟩
        constructor
        · intro h; exact absurd h (by simp)
        · rintro (h | h | h)
          · exact absurd (hcls.mpr h) (by simp)
          · exact absurd (hens.mpr h) (by simp)
          · exact absurd h (by simp)

/-- An environment resolving nothing, with a healthy output file. -/
def c3Env : IOEnv :=
  { getClass := fun _ => none, findType := fun _ => none,
    globalEnums := [], fileZombie := false }

/-- C3 counterexample: a typedef name that the type list cannot resolve
does not make the snapshot writer fail — it returns true and writes the
records (with the unresolvable typedef silently dropped), refuting the
claim that failure is signalled whenever any named entity, typedef
included, cannot be resolved. -/
theorem claim_C3_cex :
    (c3Env.findType "UnknownTypedef" = none) ∧
    ((CloseStreamerInfoROOTFile c3Env false [] ["UnknownTypedef"] [] []).1
      = true) ∧
    ((CloseStreamerInfoROOTFile c3Env false [] ["UnknownTypedef"] [] []).2
      = [WriteOp.protoClasses [], WriteOp.typedefRecords [],
         WriteOp.enumRecords [], WriteOp.ancestorPCMNames []]) :=
  ⟨rfl, rfl, rfl⟩

theorem claim_C3_witness :
    (CloseStreamerInfoROOTFile c3Env false ["MissingClass"] [] [] []).2
      = [] :=
  (claim_C3 c3Env ["MissingClass"] [] [] []).2.1 rfl

/-! ## Claim about the Property access encoding -/

lemma propertyLoop_access (qt : CanQualType) : ∀ p : PropMask,
    ((propertyLoop qt p).1.isPublic = p.isPublic ∧
     (propertyLoop qt p).1.isProtected = p.isProtected ∧
     (propertyLoop qt p).1.isPrivate = p.isPrivate) := by
  induction qt with
  | arrayT c e ih => intro p; simpa [propertyLoop] using ih p
  | refT c pe ih => intro p; simpa [propertyLoop] using ih _
  | ptrT c pe ih => intro p; simpa [propertyLoop] using ih _
  | memPtrT c pe ih => intro p; simpa [propertyLoop] using ih p
  | builtinT c => intro p; simp [propertyLoop]

lemma methodPart_access (fd : FunctionDecl) (p : PropMask) :
    (methodPart fd p).isPublic = p.isPublic ∧
    (methodPart fd p).isProtected = p.isProtected ∧
    (methodPart fd p).isPrivate = p.isPrivate := by
  unfold methodPart
  by_cases hk : fd.methodKind = MethodKind.notMethod
  · simp [hk]
  · simp only [hk, if_false]
    cases fd.methodKind <;> split_ifs <;> simp

lemma applyAccess_isPublic (a : CXXAccessSpecifier) (ctx : Bool)
    (p : PropMask) :
    (applyAccess a ctx p).isPublic
      = (decide (a = CXXAccessSpecifier.AS_public)
          || (decide (a = CXXAccessSpecifier.AS_none) && ctx)
          || p.isPublic) := by
  cases a <;> cases ctx <;> simp [applyAccess]

lemma applyAccess_isProtected (a : CXXAccessSpecifier) (ctx : Bool)
    (p : PropMask) :
    (applyAccess a ctx p).isProtected
      = (decide (a = CXXAccessSpecifier.AS_protected) || p.isProtected) := by
  cases a <;> cases ctx <;> simp [applyAccess]

lemma applyAccess_isPrivate (a : CXXAccessSpecifier) (ctx : Bool)
    (p : PropMask) :
    (applyAccess a ctx p).isPrivate
      = (decide (a = CXXAccessSpecifier.AS_private) || p.isPrivate) := by
  cases a <;> cases ctx <;> simp [applyAccess]

/-- C7: for a valid, non-deleted current declaration the Property bitmask
encodes the access level from the active access-override (using)
declaration when one is present, else from the declaration's own access;
access-none is reported as public exactly when the declaration's context
is a namespace; and the bitmask is empty when the current declaration is
deleted. -/
theorem claim_C7 (st : MethodInfoState) (fd : FunctionDecl)
    (h : GetMethodDecl st = some fd) :
    (fd.deleted = true → Property st = PropMask.empty) ∧
    (fd.deleted = false →
      (((Property st).isPublic = true) ↔
        (st.accessDecl.getD fd.access = CXXAccessSpecifier.AS_public ∨
         (st.accessDecl.getD fd.access = CXXAccessSpecifier.AS_none ∧
          fd.ctxIsNamespace = true))) ∧
      (((Property st).isProtected = true) ↔
        st.accessDecl.getD fd.access = CXXAccessSpecifier.AS_protected) ∧
      (((Property st).isPrivate = true) ↔
        st.accessDecl.getD fd.access = CXXAccessSpecifier.AS_private)) := by
  have hv := isValid_of_getMethodDecl h
  have hP : Property st = propertyOfFD st.accessDecl fd := by
    simp [Property, hv, h]
  constructor
  · intro hdel
    rw [hP]
    unfold propertyOfFD
    rw [if_pos hdel]
  · intro hdel
    rw [hP]
    simp only [propertyOfFD, hdel, Bool.false_eq_true, if_false]
    simp only [methodPart_access, propertyLoop_access,
               apply_ite PropMask.isPublic, apply_ite PropMask.isProtected,
               apply_ite PropMask.isPrivate, ite_self,
               applyAccess_isPublic, applyAccess_isProtected,
               applyAccess_isPrivate, PropMask.empty]
    cases haeff : st.accessDecl.getD fd.access <;>
      cases hctx : fd.ctxIsNamespace <;> simp

/-- A private method declaration reached through a public-access
using-declaration override, concrete input for C7. -/
def c7FD : FunctionDecl :=
  { sampleFD with access := CXXAccessSpecifier.AS_private,
                  mangledName := "c7f" }

def c7St : MethodInfoState :=
  { fDecl := some c7FD, firstTime := true, curDecls := [],
    pending := [], templateSpec := none, usingRem := none,
    accessDecl := some CXXAccessSpecifier.AS_public }

theorem claim_C7_witness : (Property c7St).isPublic = true :=
  (((claim_C7 c7St c7FD rfl).2 rfl).1).mpr (Or.inl rfl)

end CppyyBackend
